import Mathlib

/-!
The Raft module of `src/src/raft/raft.go`

A shallow embedding of the consensus module: the `Raft` record, the role
transitions (`becomeFollower`, `becomeCandidate`, `becomeLeader`), the two RPC
handlers (`RequestVote`, `AppendEntries`), the reply handling of
`sendRequestVote` and `sendAppendEntries`, `GetState`, `Make` and `Start`.

Conventions of the embedding.

* Go's `int` is an `Int`; the two increments of the source (`rf.currentTerm++`,
  `rf.voteCount++`) wrap at 64 bits, as Go's signed arithmetic does (`wrapInt`).
* `[]interface{}` is a `List E` for an arbitrary type `E` of values.
* `rf.peers` enters the code only through `len(rf.peers)` and `range rf.peers`;
  the record keeps that length.
* A buffered channel `make(chan bool, 50)` is the list of values it holds. A
  send on a full channel parks the goroutine; a handler that is parked there
  has produced no result, which is `none`.
* `rf.mu`, `rf.persister` and the log output of `print` / `DPrintf` carry no
  data that the modelled functions read; they are left out.
* `rf.peers[server].Call(...)` is the transport: what it hands back (`ok` and
  the reply record as it stands after the call) is an argument of the
  functions that model the code after the call.
-/

namespace raft

/-! ## Constants and machine integers -/

def ROLE_FOLLOWER : Int := 1
def ROLE_CANDIDATE : Int := 2
def ROLE_LEADER : Int := 3

/-- Largest value of a 64-bit Go `int`. -/
def maxInt : Int := 2 ^ 63 - 1

/-- Result of a 64-bit signed operation whose exact value is `x`: Go wraps
around on overflow. -/
def wrapInt (x : Int) : Int := (x + 2 ^ 63) % 2 ^ 64 - 2 ^ 63

/-- Capacity of the two timer channels, `make(chan bool, 50)` in `Make`. -/
def chanCap : Nat := 50

/-- Send `ch <- v` on a buffered channel holding `ch`: the new contents, or
`none` when the buffer is full and the sender is parked. -/
def chanSend (ch : List Bool) (v : Bool) : Option (List Bool) :=
  if ch.length < chanCap then some (ch ++ [v]) else none

/-! ## Data model -/

/-- The fields of `type Raft struct` that hold data. -/
structure Raft (E : Type) where
  /-- Length of the slice, `len(rf.peers)`. -/
  peers : Nat
  me : Int
  dead : Int
  currentTerm : Int
  votedFor : Int
  log : List E
  commitIndex : Int
  lastApplied : Int
  role : Int
  voteCount : Int
  receiveAppendEntries : List Bool
  receiveVoteReqs : List Bool
  deriving DecidableEq, Repr

structure AppendEntriesArgs (E : Type) where
  Term : Int := 0
  LeaderId : Int := 0
  PrevLogIndex : Int := 0
  PrevLogTerm : Int := 0
  Entries : List E := []
  LeaderCommitIndex : Int := 0
  deriving DecidableEq, Repr

structure AppendEntriesReply where
  Term : Int := 0
  Success : Bool := false
  deriving DecidableEq, Repr

structure RequestVoteArgs where
  Term : Int := 0
  CandidateId : Int := 0
  LastLogIndex : Int := 0
  LastLogTerm : Int := 0
  deriving DecidableEq, Repr

structure RequestVoteReply where
  Term : Int := 0
  VoteGranted : Bool := false
  deriving DecidableEq, Repr

variable {E : Type}

/-! ## Term comparisons -/

def othersHasBiggerTerm (othersTerm currentTerm : Int) : Bool :=
  decide (othersTerm > currentTerm)

def othersHasSmallTerm (othersTerm term : Int) : Bool :=
  decide (othersTerm < term)

/-! ## Role transitions -/

def becomeFollower (rf : Raft E) (term : Int) : Raft E :=
  { rf with role := ROLE_FOLLOWER, votedFor := -1, currentTerm := term, voteCount := 0 }

/-- The state change of `becomeCandidate` and the calls it starts: one
`sendRequestVote(i, args, reply)` goroutine for every `i` of `range rf.peers`
other than `rf.me`, all with the same `args`. -/
def becomeCandidate (rf : Raft E) : Raft E × List (Nat × RequestVoteArgs) :=
  let rf1 : Raft E :=
    { rf with role := ROLE_CANDIDATE, currentTerm := wrapInt (rf.currentTerm + 1),
              votedFor := rf.me, voteCount := 1 }
  let args : RequestVoteArgs := { Term := rf1.currentTerm, CandidateId := rf1.me }
  (rf1, ((List.range rf1.peers).filter (fun (i : Nat) => decide ((i : Int) ≠ rf1.me))).map
          (fun i => (i, args)))

def becomeLeader (rf : Raft E) : Raft E :=
  { rf with role := ROLE_LEADER, votedFor := -1, voteCount := 0 }

/-! ## RPC handlers -/

/-- The handler `AppendEntries(args, reply)`; `reply` is the record the caller
passes in, which the RPC layer allocates zero-valued. -/
def AppendEntries (rf : Raft E) (args : AppendEntriesArgs E) (reply : AppendEntriesReply) :
    Option (Raft E × AppendEntriesReply) :=
  if othersHasSmallTerm args.Term rf.currentTerm then
    some (rf, { reply with Term := rf.currentTerm })
  else
    match chanSend rf.receiveAppendEntries true with
    | none => none
    | some ch =>
      let rf1 : Raft E := { rf with receiveAppendEntries := ch }
      let reply1 : AppendEntriesReply := { reply with Success := false }
      if othersHasBiggerTerm args.Term rf1.currentTerm then
        let rf2 := becomeFollower rf1 args.Term
        some (rf2, { reply1 with Term := rf2.currentTerm })
      else
        some (rf1, { reply1 with Success := true, Term := rf1.currentTerm })

/-- The handler `RequestVote(args, reply)`. -/
def RequestVote (rf : Raft E) (args : RequestVoteArgs) (reply : RequestVoteReply) :
    Option (Raft E × RequestVoteReply) :=
  if othersHasSmallTerm args.Term rf.currentTerm then
    some (rf, { reply with Term := rf.currentTerm })
  else
    match chanSend rf.receiveVoteReqs true with
    | none => none
    | some ch =>
      let rf1 : Raft E := { rf with receiveVoteReqs := ch }
      let rf2 : Raft E :=
        if othersHasBiggerTerm args.Term rf1.currentTerm then becomeFollower rf1 args.Term
        else rf1
      let reply1 : RequestVoteReply :=
        if rf2.votedFor = -1 ∨ rf2.votedFor = args.CandidateId then
          { reply with VoteGranted := true }
        else reply
      some (rf2, { reply1 with Term := rf2.currentTerm })

/-! ## Senders: the code after the transport call -/

/-- The part of `sendAppendEntries` that follows `Call`: `ok` and `reply` are
what the call left behind, `rf` is the module when the call comes back. -/
def sendAppendEntriesReply (rf : Raft E) (ok : Bool) (reply : AppendEntriesReply) :
    Raft E × Bool :=
  if othersHasBiggerTerm reply.Term rf.currentTerm then
    (becomeFollower rf reply.Term, ok)
  else
    (rf, ok)

/-- The whole of `sendAppendEntries` when nothing else touches the module while
the call is out: a module that is not leader returns `false` without calling. -/
def sendAppendEntries (rf : Raft E) (_server : Nat) (_args : AppendEntriesArgs E)
    (ok : Bool) (reply : AppendEntriesReply) : Raft E × Bool :=
  if rf.role ≠ ROLE_LEADER then (rf, false)
  else sendAppendEntriesReply rf ok reply

/-- The code of `sendRequestVote` after `Call`: `ok` and `reply` are what the
call left behind. Neither `server` nor `args` is read again. -/
def sendRequestVote (rf : Raft E) (_server : Nat) (_args : RequestVoteArgs)
    (ok : Bool) (reply : RequestVoteReply) : Raft E × Bool :=
  if othersHasBiggerTerm reply.Term rf.currentTerm then
    (becomeFollower rf reply.Term, ok)
  else
    let rf1 : Raft E :=
      if ok && reply.VoteGranted then { rf with voteCount := wrapInt (rf.voteCount + 1) }
      else rf
    let rf2 : Raft E :=
      if rf1.voteCount > ((rf1.peers / 2 : Nat) : Int) then becomeLeader rf1 else rf1
    (rf2, ok)

/-! ## Service interface -/

def GetState (rf : Raft E) : Int × Bool :=
  (rf.currentTerm, decide (rf.role = ROLE_LEADER))

/-- Both branches of `readPersist` return without touching the module. -/
def readPersist (rf : Raft E) (_data : List Nat) : Raft E := rf

/-- The module `Make` returns, before its two loops run; `persisted` is what
`persister.ReadRaftState()` yields. -/
def Make (peers : Nat) (me : Int) (persisted : List Nat) : Raft E :=
  readPersist
    { peers := peers, me := me, dead := 0, currentTerm := 0, votedFor := -1, log := [],
      commitIndex := 0, lastApplied := 0, role := ROLE_FOLLOWER, voteCount := 0,
      receiveAppendEntries := [], receiveVoteReqs := [] }
    persisted

/-- The module after `Start(command)` and the triple `(index, term, isLeader)`. -/
def Start (rf : Raft E) (_command : E) : Raft E × Int × Int × Bool :=
  let index : Int := -1
  let term : Int := -1
  let isLeader : Bool := true
  (rf, index, term, isLeader)

/-- The timer branch of the follower case of the loop in `Make`. -/
def followerTimeout (rf : Raft E) : Raft E :=
  { rf with role := ROLE_CANDIDATE }

/-! ## A cluster of modules

The modules of a cluster together with the `RequestVote` calls that are under
way. The steps are the ones the source takes in an election: the two cases of
the loop in `Make` that lead to `becomeCandidate`, the handler run at the
called server, and the caller's code after `Call`. -/

structure Cluster (E : Type) where
  nodes : List (Raft E)
  /-- Calls started by `becomeCandidate` and not yet handled: caller, server, args. -/
  calls : List (Nat × Nat × RequestVoteArgs)
  /-- Calls the server has handled and whose caller has not resumed yet:
  caller, server, args and the reply. -/
  returned : List (Nat × Nat × RequestVoteArgs × RequestVoteReply)
  deriving DecidableEq, Repr

/-- The cluster right after every member ran `Make(peers, i, ...)` on an empty store. -/
def Cluster.init (n : Nat) : Cluster E :=
  { nodes := (List.range n).map (fun (i : Nat) => Make n (i : Int) []),
    calls := [], returned := [] }

inductive Event where
  /-- The election timer of follower `i` fires. -/
  | timeout (i : Nat)
  /-- The candidate case of the loop of module `i` runs `becomeCandidate`. -/
  | candidate (i : Nat)
  /-- The `k`-th outstanding call is handled by its server. -/
  | handle (k : Nat)
  /-- The caller of the `k`-th handled call resumes after `Call`, with `ok = true`. -/
  | reply (k : Nat)
  deriving DecidableEq, Repr

def step (c : Cluster E) : Event → Option (Cluster E)
  | .timeout i =>
    match c.nodes[i]? with
    | some rf =>
      if rf.role = ROLE_FOLLOWER then
        some { c with nodes := c.nodes.set i (followerTimeout rf) }
      else none
    | none => none
  | .candidate i =>
    match c.nodes[i]? with
    | some rf =>
      if rf.role = ROLE_CANDIDATE then
        some { c with nodes := c.nodes.set i (becomeCandidate rf).1,
                      calls := c.calls ++ (becomeCandidate rf).2.map (fun p => (i, p.1, p.2)) }
      else none
    | none => none
  | .handle k =>
    match c.calls[k]? with
    | some (i, j, args) =>
      match c.nodes[j]? with
      | some rf =>
        match RequestVote rf args {} with
        | some (rf1, r) =>
          some { nodes := c.nodes.set j rf1, calls := c.calls.eraseIdx k,
                 returned := c.returned ++ [(i, j, args, r)] }
        | none => none
      | none => none
    | none => none
  | .reply k =>
    match c.returned[k]? with
    | some (i, j, args, r) =>
      match c.nodes[i]? with
      | some rf =>
        some { c with nodes := c.nodes.set i (sendRequestVote rf j args true r).1,
                      returned := c.returned.eraseIdx k }
      | none => none
    | none => none

def run (c : Cluster E) : List Event → Option (Cluster E)
  | [] => some c
  | e :: es => (step c e).bind (fun c1 => run c1 es)

/-- No two distinct modules are leader with the same `currentTerm`. -/
def ElectionSafety (c : Cluster E) : Prop :=
  ∀ (i j : Nat) (a b : Raft E), i ≠ j → c.nodes[i]? = some a → c.nodes[j]? = some b →
    a.role = ROLE_LEADER → b.role = ROLE_LEADER → a.currentTerm ≠ b.currentTerm

/-! ## The wording of the specification

Predicates that follow the specification's sentences, for comparison with what
the handlers compute. The source's log entries are bare `interface{}` values;
`termOf` reads the term the specification's `Log Entry` carries. -/

/-- Term of the last entry of the log, 0 for an empty log. -/
def specLastLogTerm (termOf : E → Int) (log : List E) : Int :=
  match log.getLast? with
  | some e => termOf e
  | none => 0

/-- The candidate's log is at least as up-to-date as the voter's: `lastLogTerm`
greater, or equal and `lastLogIndex ≥` the voter's last index. -/
def specUpToDate (termOf : E → Int) (log : List E) (args : RequestVoteArgs) : Prop :=
  args.LastLogTerm > specLastLogTerm termOf log ∨
    (args.LastLogTerm = specLastLogTerm termOf log ∧ args.LastLogIndex ≥ (log.length : Int))

/-- Grant condition of section 4.2, on the voter as it stands after any term
adoption. -/
def specVoteGrant (termOf : E → Int) (voter : Raft E) (args : RequestVoteArgs) : Prop :=
  (voter.votedFor = -1 ∨ voter.votedFor = args.CandidateId) ∧
    specUpToDate termOf voter.log args

/-- Consistency check of section 4.2: the local log has an entry at
`prevLogIndex` with term `prevLogTerm`; index 0 with term 0 always passes. -/
def specConsistent (termOf : E → Int) (log : List E) (args : AppendEntriesArgs E) : Prop :=
  (args.PrevLogIndex = 0 ∧ args.PrevLogTerm = 0) ∨
    (0 < args.PrevLogIndex ∧
      (log[args.PrevLogIndex.toNat - 1]?).map termOf = some args.PrevLogTerm)

/-- The log `after` holds exactly the supplied entries at the 1-based indexes
`PrevLogIndex+1 .. PrevLogIndex+len(Entries)`, and agrees with `before` up to
`PrevLogIndex`. -/
def specReplicated (before after : List E) (args : AppendEntriesArgs E) : Prop :=
  after.take args.PrevLogIndex.toNat = before.take args.PrevLogIndex.toNat ∧
    (after.drop args.PrevLogIndex.toNat).take args.Entries.length = args.Entries

instance (termOf : E → Int) (log : List E) (args : RequestVoteArgs) :
    Decidable (specUpToDate termOf log args) := by
  unfold specUpToDate; infer_instance

instance (termOf : E → Int) (voter : Raft E) (args : RequestVoteArgs) :
    Decidable (specVoteGrant termOf voter args) := by
  unfold specVoteGrant; infer_instance

instance (termOf : E → Int) (log : List E) (args : AppendEntriesArgs E) :
    Decidable (specConsistent termOf log args) := by
  unfold specConsistent; infer_instance

instance [DecidableEq E] (before after : List E) (args : AppendEntriesArgs E) :
    Decidable (specReplicated before after args) := by
  unfold specReplicated; infer_instance

/-! ## Concrete states and requests -/

/-- Modules 0 and 2 time out and stand in term 1; module 1 handles the call of
each; both callers then resume. -/
def splitVote : List Event :=
  [.timeout 0, .candidate 0, .timeout 2, .candidate 2, .handle 0, .handle 2, .reply 0, .reply 0]

/-- A leader in term 5 with signals pending on both channels. -/
def leaderAtFive : Raft Nat :=
  { peers := 3, me := 0, dead := 0, currentTerm := 5, votedFor := -1, log := [4, 2],
    commitIndex := 1, lastApplied := 1, role := ROLE_LEADER, voteCount := 0,
    receiveAppendEntries := [true], receiveVoteReqs := [true, true] }

/-- A candidate whose term is the largest 64-bit `int`. -/
def lastTermCandidate : Raft Unit :=
  { (Make 3 0 [] : Raft Unit) with currentTerm := 9223372036854775807, role := ROLE_CANDIDATE }

/-- A follower in term 3 that has not voted and whose log ends with an entry of
term 3; an entry is represented by its term. -/
def voterWithLog : Raft Int :=
  { (Make 3 1 [] : Raft Int) with currentTerm := 3, log := [3] }

/-- A heartbeat-shaped request of term 0 that carries one entry to be stored at
index 1. -/
def oneEntryArgs : AppendEntriesArgs Int :=
  { Term := 0, LeaderId := 0, PrevLogIndex := 0, PrevLogTerm := 0, Entries := [7],
    LeaderCommitIndex := 0 }

/-- A candidate of term 2 with its own vote only: `Make`, then two rounds of
`becomeCandidate`. -/
def secondRoundCandidate : Raft Unit :=
  (becomeCandidate (becomeCandidate (Make 3 0 [])).1).1

/-- The module after handling `n` requests `AppendEntries{Term: term, LeaderId: 2}`
in a row, each on a zero-valued reply; `none` when one of them does not return. -/
def heartbeats (term : Int) : Nat → Raft E → Option (Raft E)
  | 0, rf => some rf
  | n + 1, rf =>
    (AppendEntries rf { Term := term, LeaderId := 2 } {}).bind (fun p => heartbeats term n p.1)

/-- The module after handling `n` requests `RequestVote{Term: term, CandidateId: 2}`
in a row, each on a zero-valued reply; `none` when one of them does not return. -/
def voteRequests (term : Int) : Nat → Raft E → Option (Raft E)
  | 0, rf => some rf
  | n + 1, rf =>
    (RequestVote rf { Term := term, CandidateId := 2 } {}).bind
      (fun p => voteRequests term n p.1)

/-- The leader of term 1 at peer 0 of a cluster of three: `Make`, one
`becomeCandidate`, and the granted reply of peer 1. -/
def leaderOfTermOne : Raft E :=
  (sendRequestVote (becomeCandidate (Make 3 0 [])).1 1 { Term := 1, CandidateId := 0 } true
    { Term := 1, VoteGranted := true }).1

/-- The leader of term 1 with fifty signals waiting on `receiveAppendEntries`. -/
def heartbeatFullLeader : Raft E :=
  { (leaderOfTermOne : Raft E) with receiveAppendEntries := List.replicate 50 true }

/-- The leader of term 1 with fifty signals waiting on `receiveVoteReqs`. -/
def voteFullLeader : Raft E :=
  { (leaderOfTermOne : Raft E) with receiveVoteReqs := List.replicate 50 true }

/-! ## Auxiliary facts -/

theorem wrapInt_of_range (x : Int) (hlo : -(2 ^ 63) ≤ x) (hhi : x ≤ maxInt) : wrapInt x = x := by
  unfold wrapInt
  unfold maxInt at hhi
  omega

/-- An increment below the largest `int` does not go down, whatever the start. -/
theorem le_wrapInt_succ (x : Int) (h : x < maxInt) : x ≤ wrapInt (x + 1) := by
  unfold wrapInt
  unfold maxInt at h
  omega

theorem chanSend_of_room (ch : List Bool) (v : Bool) (h : ch.length < chanCap) :
    chanSend ch v = some (ch ++ [v]) := by
  simp [chanSend, h]

theorem chanSend_of_full (ch : List Bool) (v : Bool) (h : ¬ ch.length < chanCap) :
    chanSend ch v = none := by
  simp [chanSend, h]

/-- The `RequestVote` handler returns exactly when the request is stale or
`receiveVoteReqs` has room. -/
theorem RequestVote_isSome_iff (rf : Raft E) (args : RequestVoteArgs) (reply : RequestVoteReply) :
    (RequestVote rf args reply).isSome = true ↔
      (args.Term < rf.currentTerm ∨ rf.receiveVoteReqs.length < chanCap) := by
  unfold RequestVote othersHasSmallTerm
  by_cases h1 : args.Term < rf.currentTerm
  · simp [h1]
  · by_cases h2 : rf.receiveVoteReqs.length < chanCap
    · simp [h1, chanSend_of_room _ _ h2, h2]
    · simp [h1, chanSend_of_full _ _ h2, h2]

/-- The `AppendEntries` handler returns exactly when the request is stale or
`receiveAppendEntries` has room. -/
theorem AppendEntries_isSome_iff (rf : Raft E) (args : AppendEntriesArgs E)
    (reply : AppendEntriesReply) :
    (AppendEntries rf args reply).isSome = true ↔
      (args.Term < rf.currentTerm ∨ rf.receiveAppendEntries.length < chanCap) := by
  unfold AppendEntries othersHasSmallTerm
  by_cases h1 : args.Term < rf.currentTerm
  · simp [h1]
  · by_cases h2 : rf.receiveAppendEntries.length < chanCap
    · by_cases h3 : othersHasBiggerTerm args.Term rf.currentTerm = true
      · simp [h1, chanSend_of_room _ _ h2, h2, h3]
      · simp [h1, chanSend_of_room _ _ h2, h2, h3]
    · simp [h1, chanSend_of_full _ _ h2, h2]

/-- What `RequestVote` returns on a request that is not stale, when
`receiveVoteReqs` has room. -/
theorem RequestVote_of_room (rf : Raft E) (args : RequestVoteArgs) (reply : RequestVoteReply)
    (hterm : rf.currentTerm ≤ args.Term) (hroom : rf.receiveVoteReqs.length < chanCap) :
    RequestVote rf args reply =
      if rf.currentTerm < args.Term then
        some (becomeFollower { rf with receiveVoteReqs := rf.receiveVoteReqs ++ [true] } args.Term,
              { Term := args.Term, VoteGranted := true })
      else
        some ({ rf with receiveVoteReqs := rf.receiveVoteReqs ++ [true] },
              { Term := rf.currentTerm,
                VoteGranted := if rf.votedFor = -1 ∨ rf.votedFor = args.CandidateId then true
                               else reply.VoteGranted }) := by
  have h1 : ¬ args.Term < rf.currentTerm := not_lt.mpr hterm
  unfold RequestVote othersHasSmallTerm othersHasBiggerTerm
  simp only [h1, decide_False, Bool.false_eq_true, if_false, chanSend_of_room _ _ hroom]
  by_cases h2 : rf.currentTerm < args.Term
  · simp [h2, becomeFollower]
  · by_cases h3 : rf.votedFor = -1 ∨ rf.votedFor = args.CandidateId
    · simp [h2, h3]
    · simp [h2, h3]

/-- What `AppendEntries` returns on a request that is not stale, when
`receiveAppendEntries` has room. -/
theorem AppendEntries_of_room (rf : Raft E) (args : AppendEntriesArgs E)
    (reply : AppendEntriesReply)
    (hterm : rf.currentTerm ≤ args.Term) (hroom : rf.receiveAppendEntries.length < chanCap) :
    AppendEntries rf args reply =
      if rf.currentTerm < args.Term then
        some (becomeFollower
                { rf with receiveAppendEntries := rf.receiveAppendEntries ++ [true] } args.Term,
              { Term := args.Term, Success := false })
      else
        some ({ rf with receiveAppendEntries := rf.receiveAppendEntries ++ [true] },
              { Term := rf.currentTerm, Success := true }) := by
  have h1 : ¬ args.Term < rf.currentTerm := not_lt.mpr hterm
  unfold AppendEntries othersHasSmallTerm othersHasBiggerTerm
  simp only [h1, decide_False, Bool.false_eq_true, if_false, chanSend_of_room _ _ hroom]
  by_cases h2 : rf.currentTerm < args.Term
  · simp [h2, becomeFollower]
  · simp [h2]

/-- A stale request is answered without touching the module: only the `Term`
field of the reply record is written. -/
theorem stale_term_rejected_aux (rf : Raft E) :
    (∀ args : RequestVoteArgs, args.Term < rf.currentTerm →
      ∀ reply, RequestVote rf args reply = some (rf, { reply with Term := rf.currentTerm })) ∧
    (∀ args : AppendEntriesArgs E, args.Term < rf.currentTerm →
      ∀ reply, AppendEntries rf args reply = some (rf, { reply with Term := rf.currentTerm })) := by
  refine ⟨fun args h reply => ?_, fun args h reply => ?_⟩
  · simp [RequestVote, othersHasSmallTerm, h]
  · simp [AppendEntries, othersHasSmallTerm, h]

/-- On a full channel a request that is not stale gets no answer from
`RequestVote`: the handler is parked at its send. -/
theorem RequestVote_of_full (rf : Raft E) (args : RequestVoteArgs) (reply : RequestVoteReply)
    (hterm : rf.currentTerm ≤ args.Term) (hfull : ¬ rf.receiveVoteReqs.length < chanCap) :
    RequestVote rf args reply = none := by
  have h1 : ¬ args.Term < rf.currentTerm := not_lt.mpr hterm
  simp [RequestVote, othersHasSmallTerm, h1, chanSend_of_full _ _ hfull]

/-- On a full channel a request that is not stale gets no answer from
`AppendEntries`: the handler is parked at its send. -/
theorem AppendEntries_of_full (rf : Raft E) (args : AppendEntriesArgs E)
    (reply : AppendEntriesReply)
    (hterm : rf.currentTerm ≤ args.Term) (hfull : ¬ rf.receiveAppendEntries.length < chanCap) :
    AppendEntries rf args reply = none := by
  have h1 : ¬ args.Term < rf.currentTerm := not_lt.mpr hterm
  simp [AppendEntries, othersHasSmallTerm, h1, chanSend_of_full _ _ hfull]

/-! ## Stale requests (C5) -/

/-- C5. A `RequestVote` or `AppendEntries` request whose `Term` is below
`currentTerm` is answered with the module's own term and `VoteGranted = false`
(`Success = false`) on the zero-valued reply record, and the module is returned
exactly as it was, both timer channels included. For any reply record passed
in, only its `Term` field is written. -/
theorem stale_term_rejected (rf : Raft E) :
    (∀ args : RequestVoteArgs, args.Term < rf.currentTerm →
      RequestVote rf args {} = some (rf, { Term := rf.currentTerm, VoteGranted := false }) ∧
      ∀ reply, RequestVote rf args reply = some (rf, { reply with Term := rf.currentTerm })) ∧
    (∀ args : AppendEntriesArgs E, args.Term < rf.currentTerm →
      AppendEntries rf args {} = some (rf, { Term := rf.currentTerm, Success := false }) ∧
      ∀ reply, AppendEntries rf args reply = some (rf, { reply with Term := rf.currentTerm })) := by
  refine ⟨fun args h => ⟨?_, fun reply => ?_⟩, fun args h => ⟨?_, fun reply => ?_⟩⟩
  · simp [RequestVote, othersHasSmallTerm, h]
  · simp [RequestVote, othersHasSmallTerm, h]
  · simp [AppendEntries, othersHasSmallTerm, h]
  · simp [AppendEntries, othersHasSmallTerm, h]

/-- C5 at a leader of term 5 that receives requests of term 4. -/
theorem stale_term_rejected_witness :
    RequestVote leaderAtFive { Term := 4, CandidateId := 1 } {} =
        some (leaderAtFive, { Term := 5, VoteGranted := false }) ∧
      AppendEntries leaderAtFive { Term := 4, LeaderId := 1, Entries := [9] } {} =
        some (leaderAtFive, { Term := 5, Success := false }) :=
  ⟨((stale_term_rejected leaderAtFive).1 { Term := 4, CandidateId := 1 } (by decide)).1,
   ((stale_term_rejected leaderAtFive).2 { Term := 4, LeaderId := 1, Entries := [9] }
      (by decide)).1⟩

/-! ## Higher terms (C4) -/

/-- C4, as stated, fails where the handler's channel is full. The leader of
term 1 that has handled fifty heartbeats of term 1 is still leader of term 1
with `receiveAppendEntries` full, and an `AppendEntries` request of term 2 then
gets no answer: the handler is parked at its send, before the term test, and
the module is not demoted. The same holds of `RequestVote` after fifty vote
requests of term 1. -/
theorem full_channel_blocks_demotion :
    (heartbeats 1 50 (leaderOfTermOne : Raft Unit) = some heartbeatFullLeader ∧
      (heartbeatFullLeader : Raft Unit).role = ROLE_LEADER ∧
      (heartbeatFullLeader : Raft Unit).currentTerm = 1 ∧
      AppendEntries (heartbeatFullLeader : Raft Unit) { Term := 2, LeaderId := 1 } {} = none ∧
      ¬ ∃ rf1 r, AppendEntries (heartbeatFullLeader : Raft Unit) { Term := 2, LeaderId := 1 } {}
            = some (rf1, r) ∧
          rf1.role = ROLE_FOLLOWER ∧ rf1.currentTerm = 2 ∧ r.Term = 2) ∧
    (voteRequests 1 50 (leaderOfTermOne : Raft Unit) = some voteFullLeader ∧
      (voteFullLeader : Raft Unit).role = ROLE_LEADER ∧
      (voteFullLeader : Raft Unit).currentTerm = 1 ∧
      RequestVote (voteFullLeader : Raft Unit) { Term := 2, CandidateId := 1 } {} = none ∧
      ¬ ∃ rf1 r, RequestVote (voteFullLeader : Raft Unit) { Term := 2, CandidateId := 1 } {}
            = some (rf1, r) ∧
          rf1.role = ROLE_FOLLOWER ∧ rf1.currentTerm = 2 ∧ r.Term = 2) := by
  have hae : AppendEntries (heartbeatFullLeader : Raft Unit) { Term := 2, LeaderId := 1 } {}
      = none := by decide
  have hrv : RequestVote (voteFullLeader : Raft Unit) { Term := 2, CandidateId := 1 } {}
      = none := by decide
  refine ⟨⟨by decide, by decide, by decide, hae, ?_⟩, ⟨by decide, by decide, by decide, hrv, ?_⟩⟩
  · rintro ⟨rf1, r, h, -⟩
    rw [hae] at h
    exact Option.noConfusion h
  · rintro ⟨rf1, r, h, -⟩
    rw [hrv] at h
    exact Option.noConfusion h

/-- C4, amended. Whatever the role, a term `t` above `currentTerm` that arrives
in the reply to a `RequestVote` or `AppendEntries` call leaves the module
follower with `currentTerm = t`. A `RequestVote` or `AppendEntries` request of
term `t` does the same and is answered with `Term = t` when the handler's
channel holds fewer than fifty signals; when that channel is full the handler
gives no answer. -/
theorem higher_term_demotes (rf : Raft E) (t : Int) (ht : rf.currentTerm < t) :
    (∀ (args : RequestVoteArgs) (reply : RequestVoteReply), args.Term = t →
      rf.receiveVoteReqs.length < chanCap →
      ∃ rf1 r, RequestVote rf args reply = some (rf1, r) ∧
        rf1.role = ROLE_FOLLOWER ∧ rf1.currentTerm = t ∧ r.Term = t) ∧
    (∀ (args : AppendEntriesArgs E) (reply : AppendEntriesReply), args.Term = t →
      rf.receiveAppendEntries.length < chanCap →
      ∃ rf1 r, AppendEntries rf args reply = some (rf1, r) ∧
        rf1.role = ROLE_FOLLOWER ∧ rf1.currentTerm = t ∧ r.Term = t) ∧
    (∀ (server : Nat) (args : RequestVoteArgs) (ok : Bool) (reply : RequestVoteReply),
      reply.Term = t →
      (sendRequestVote rf server args ok reply).1.role = ROLE_FOLLOWER ∧
        (sendRequestVote rf server args ok reply).1.currentTerm = t) ∧
    (∀ (ok : Bool) (reply : AppendEntriesReply), reply.Term = t →
      (sendAppendEntriesReply rf ok reply).1.role = ROLE_FOLLOWER ∧
        (sendAppendEntriesReply rf ok reply).1.currentTerm = t) ∧
    (∀ (server : Nat) (args : AppendEntriesArgs E) (ok : Bool) (reply : AppendEntriesReply),
      reply.Term = t → rf.role = ROLE_LEADER →
      (sendAppendEntries rf server args ok reply).1.role = ROLE_FOLLOWER ∧
        (sendAppendEntries rf server args ok reply).1.currentTerm = t) ∧
    (∀ (args : RequestVoteArgs) (reply : RequestVoteReply), args.Term = t →
      ¬ rf.receiveVoteReqs.length < chanCap → RequestVote rf args reply = none) ∧
    (∀ (args : AppendEntriesArgs E) (reply : AppendEntriesReply), args.Term = t →
      ¬ rf.receiveAppendEntries.length < chanCap → AppendEntries rf args reply = none) := by
  refine ⟨?_, ?_, ?_, ?_, ?_, ?_, ?_⟩
  · intro args reply hargs hroom
    subst hargs
    rw [RequestVote_of_room rf args reply (le_of_lt ht) hroom, if_pos ht]
    exact ⟨_, _, rfl, rfl, rfl, rfl⟩
  · intro args reply hargs hroom
    subst hargs
    rw [AppendEntries_of_room rf args reply (le_of_lt ht) hroom, if_pos ht]
    exact ⟨_, _, rfl, rfl, rfl, rfl⟩
  · intro server args ok reply hreply
    subst hreply
    simp [sendRequestVote, othersHasBiggerTerm, ht, becomeFollower]
  · intro ok reply hreply
    subst hreply
    simp [sendAppendEntriesReply, othersHasBiggerTerm, ht, becomeFollower]
  · intro server args ok reply hreply hrole
    subst hreply
    simp [sendAppendEntries, hrole, sendAppendEntriesReply, othersHasBiggerTerm, ht,
      becomeFollower]
  · intro args reply hargs hfull
    subst hargs
    exact RequestVote_of_full rf args reply (le_of_lt ht) hfull
  · intro args reply hargs hfull
    subst hargs
    exact AppendEntries_of_full rf args reply (le_of_lt ht) hfull

/-- C4, amended, at a leader of term 5 that receives a vote request of term 8. -/
theorem higher_term_demotes_witness :
    leaderAtFive.currentTerm < 8 ∧
      ∃ rf1 r, RequestVote leaderAtFive { Term := 8, CandidateId := 2 } {} = some (rf1, r) ∧
        rf1.role = ROLE_FOLLOWER ∧ rf1.currentTerm = 8 ∧ r.Term = 8 :=
  ⟨by decide,
   (higher_term_demotes leaderAtFive 8 (by decide)).1 { Term := 8, CandidateId := 2 } {} rfl
     (by decide)⟩

/-! ## Term monotonicity (C3) -/

/-- C3, as stated, fails at one point: `becomeCandidate` runs
`rf.currentTerm++`, which at the largest `int` wraps to the smallest one. -/
theorem becomeCandidate_wraps_term :
    (becomeCandidate lastTermCandidate).1.currentTerm = -9223372036854775808 ∧
      ¬ lastTermCandidate.currentTerm ≤ (becomeCandidate lastTermCandidate).1.currentTerm := by
  decide

/-- C3, amended. No operation of the module lowers `currentTerm`: not the two
handlers (which return whenever the request is stale or their channel has
room), not `becomeLeader`, not the code after either `Call`, and not
`becomeCandidate` as long as `currentTerm` is below the largest `int`. -/
theorem term_monotone (rf : Raft E) :
    (∀ (args : RequestVoteArgs) (reply : RequestVoteReply),
      (args.Term < rf.currentTerm ∨ rf.receiveVoteReqs.length < chanCap →
        (RequestVote rf args reply).isSome = true) ∧
      ∀ rf1 r, RequestVote rf args reply = some (rf1, r) → rf.currentTerm ≤ rf1.currentTerm) ∧
    (∀ (args : AppendEntriesArgs E) (reply : AppendEntriesReply),
      (args.Term < rf.currentTerm ∨ rf.receiveAppendEntries.length < chanCap →
        (AppendEntries rf args reply).isSome = true) ∧
      ∀ rf1 r, AppendEntries rf args reply = some (rf1, r) → rf.currentTerm ≤ rf1.currentTerm) ∧
    (rf.currentTerm < maxInt → rf.currentTerm ≤ (becomeCandidate rf).1.currentTerm) ∧
    rf.currentTerm ≤ (becomeLeader rf).currentTerm ∧
    (∀ (server : Nat) (args : RequestVoteArgs) (ok : Bool) (reply : RequestVoteReply),
      rf.currentTerm ≤ (sendRequestVote rf server args ok reply).1.currentTerm) ∧
    (∀ (ok : Bool) (reply : AppendEntriesReply),
      rf.currentTerm ≤ (sendAppendEntriesReply rf ok reply).1.currentTerm) ∧
    (∀ (server : Nat) (args : AppendEntriesArgs E) (ok : Bool) (reply : AppendEntriesReply),
      rf.currentTerm ≤ (sendAppendEntries rf server args ok reply).1.currentTerm) := by
  have hreply : ∀ (ok : Bool) (reply : AppendEntriesReply),
      rf.currentTerm ≤ (sendAppendEntriesReply rf ok reply).1.currentTerm := by
    intro ok reply
    unfold sendAppendEntriesReply othersHasBiggerTerm
    by_cases h : reply.Term > rf.currentTerm
    · simp [h, becomeFollower]; exact le_of_lt h
    · simp [h]
  refine ⟨?_, ?_, ?_, ?_, ?_, hreply, ?_⟩
  · intro args reply
    refine ⟨(RequestVote_isSome_iff rf args reply).mpr, ?_⟩
    intro rf1 r hres
    by_cases hstale : args.Term < rf.currentTerm
    · rw [((stale_term_rejected_aux rf).1 args hstale) reply] at hres
      simp only [Option.some.injEq, Prod.mk.injEq] at hres
      rw [← hres.1]
    · by_cases hroom : rf.receiveVoteReqs.length < chanCap
      · rw [RequestVote_of_room rf args reply (not_lt.mp hstale) hroom] at hres
        by_cases hbig : rf.currentTerm < args.Term
        · rw [if_pos hbig] at hres
          simp only [Option.some.injEq, Prod.mk.injEq] at hres
          rw [← hres.1]
          exact le_of_lt hbig
        · rw [if_neg hbig] at hres
          simp only [Option.some.injEq, Prod.mk.injEq] at hres
          rw [← hres.1]
      · have hnone : (RequestVote rf args reply).isSome = false := by
          rw [Bool.eq_false_iff]
          intro hs
          rcases (RequestVote_isSome_iff rf args reply).mp hs with h | h
          · exact hstale h
          · exact hroom h
        rw [hres] at hnone
        simp at hnone
  · intro args reply
    refine ⟨(AppendEntries_isSome_iff rf args reply).mpr, ?_⟩
    intro rf1 r hres
    by_cases hstale : args.Term < rf.currentTerm
    · rw [((stale_term_rejected_aux rf).2 args hstale) reply] at hres
      simp only [Option.some.injEq, Prod.mk.injEq] at hres
      rw [← hres.1]
    · by_cases hroom : rf.receiveAppendEntries.length < chanCap
      · rw [AppendEntries_of_room rf args reply (not_lt.mp hstale) hroom] at hres
        by_cases hbig : rf.currentTerm < args.Term
        · rw [if_pos hbig] at hres
          simp only [Option.some.injEq, Prod.mk.injEq] at hres
          rw [← hres.1]
          exact le_of_lt hbig
        · rw [if_neg hbig] at hres
          simp only [Option.some.injEq, Prod.mk.injEq] at hres
          rw [← hres.1]
      · have hnone : (AppendEntries rf args reply).isSome = false := by
          rw [Bool.eq_false_iff]
          intro hs
          rcases (AppendEntries_isSome_iff rf args reply).mp hs with h | h
          · exact hstale h
          · exact hroom h
        rw [hres] at hnone
        simp at hnone
  · intro h
    exact le_wrapInt_succ rf.currentTerm h
  · exact le_refl _
  · intro server args ok reply
    unfold sendRequestVote othersHasBiggerTerm
    by_cases h : reply.Term > rf.currentTerm
    · simp [h, becomeFollower]; exact le_of_lt h
    · simp only [h, decide_False, Bool.false_eq_true, if_false]
      split_ifs <;> simp [becomeLeader]
  · intro server args ok reply
    unfold sendAppendEntries
    split_ifs
    · exact le_refl _
    · exact hreply ok reply

/-- C3, amended, at a module of term 5 that runs `becomeCandidate`. -/
theorem term_monotone_witness :
    leaderAtFive.currentTerm < maxInt ∧
      leaderAtFive.currentTerm ≤ (becomeCandidate leaderAtFive).1.currentTerm :=
  ⟨by decide, (term_monotone leaderAtFive).2.2.1 (by decide)⟩

/-! ## The vote grant condition (C6) -/

/-- C6, as stated, fails: a candidate whose log is empty (`LastLogIndex = 0`,
`LastLogTerm = 0`) is granted the vote of a voter whose log ends in term 3;
and the module that `Make` returns, its log empty, grants its vote to a
candidate that reports `LastLogTerm = -1`. -/
theorem vote_granted_without_log_check :
    (∃ rf1 r, RequestVote voterWithLog { Term := 3, CandidateId := 0 } {} = some (rf1, r) ∧
      r.VoteGranted = true ∧
      ¬ specVoteGrant id rf1 { Term := 3, CandidateId := 0 }) ∧
    (∃ rf1 r, RequestVote (Make 3 1 [] : Raft Int)
        { Term := 1, CandidateId := 0, LastLogIndex := 0, LastLogTerm := -1 } {} =
          some (rf1, r) ∧
      r.VoteGranted = true ∧
      ¬ specVoteGrant id rf1 { Term := 1, CandidateId := 0, LastLogIndex := 0,
                               LastLogTerm := -1 }) := by
  refine ⟨⟨_, _, rfl, rfl, ?_⟩, ⟨_, _, rfl, rfl, ?_⟩⟩
  · decide
  · decide

/-- C6, amended. On a request with `Term ≥ currentTerm` (and room in
`receiveVoteReqs`) the handler returns, `votedFor` afterwards is -1 when the
term was adopted and untouched otherwise, and the reply has
`VoteGranted = true` exactly when that `votedFor` is -1 or `CandidateId`.
`LastLogIndex` and `LastLogTerm` are not consulted. -/
theorem vote_grant_condition (rf : Raft E) (args : RequestVoteArgs)
    (hterm : rf.currentTerm ≤ args.Term) (hroom : rf.receiveVoteReqs.length < chanCap) :
    ∃ rf1 r, RequestVote rf args {} = some (rf1, r) ∧
      rf1.votedFor = (if rf.currentTerm < args.Term then -1 else rf.votedFor) ∧
      (r.VoteGranted = true ↔ (rf1.votedFor = -1 ∨ rf1.votedFor = args.CandidateId)) := by
  rw [RequestVote_of_room rf args {} hterm hroom]
  by_cases hbig : rf.currentTerm < args.Term
  · rw [if_pos hbig]
    refine ⟨_, _, rfl, ?_, ?_⟩
    · simp [becomeFollower, hbig]
    · simp [becomeFollower]
  · rw [if_neg hbig]
    refine ⟨_, _, rfl, ?_, ?_⟩
    · simp [hbig]
    · by_cases hv : rf.votedFor = -1 ∨ rf.votedFor = args.CandidateId
      · simp [hv]
      · simp [hv]

/-- C6, amended, at a voter of term 3 asked for its vote in term 3. -/
theorem vote_grant_condition_witness :
    ∃ rf1 r, RequestVote voterWithLog { Term := 3, CandidateId := 0 } {} = some (rf1, r) ∧
      rf1.votedFor = (if voterWithLog.currentTerm < 3 then -1 else voterWithLog.votedFor) ∧
      (r.VoteGranted = true ↔ (rf1.votedFor = -1 ∨ rf1.votedFor = 0)) :=
  vote_grant_condition voterWithLog { Term := 3, CandidateId := 0 } (by decide) (by decide)

/-! ## Entries carried by AppendEntries (C8) -/

/-- C8, as stated, fails in three ways. The module `Make` returns, handed one
entry after index 0 in its own term, answers `Success = true` and its log is
still empty. The same module, sent a request of term 1 with no entries, which
passes the consistency check, answers `Success = false`. And the leader of
term 1, its `receiveAppendEntries` filled by fifty heartbeats of term 1, gives
the next request of that term no answer at all. -/
theorem append_entries_stores_nothing :
    (∃ rf1 r, AppendEntries (Make 3 1 [] : Raft Int) oneEntryArgs {} = some (rf1, r) ∧
      (Make 3 1 [] : Raft Int).currentTerm ≤ oneEntryArgs.Term ∧
      specConsistent id (Make 3 1 [] : Raft Int).log oneEntryArgs ∧
      r.Success = true ∧ rf1.log = [] ∧
      ¬ specReplicated (Make 3 1 [] : Raft Int).log rf1.log oneEntryArgs) ∧
    (∃ rf1 r, AppendEntries (Make 3 1 [] : Raft Int) { Term := 1, LeaderId := 0 } {}
        = some (rf1, r) ∧
      (Make 3 1 [] : Raft Int).currentTerm ≤ 1 ∧
      specConsistent id (Make 3 1 [] : Raft Int).log { Term := 1, LeaderId := 0 } ∧
      r.Success = false) ∧
    (heartbeats 1 50 (leaderOfTermOne : Raft Int) = some heartbeatFullLeader ∧
      (heartbeatFullLeader : Raft Int).currentTerm ≤ 1 ∧
      specConsistent id (heartbeatFullLeader : Raft Int).log { Term := 1, LeaderId := 2 } ∧
      AppendEntries (heartbeatFullLeader : Raft Int) { Term := 1, LeaderId := 2 } {} = none) := by
  refine ⟨⟨_, _, rfl, ?_, ?_, rfl, rfl, ?_⟩, ⟨_, _, rfl, ?_, ?_, rfl⟩, ?_, ?_, ?_, ?_⟩ <;> decide

/-- C8, amended. On a request with `Term ≥ currentTerm`, when
`receiveAppendEntries` holds fewer than fifty signals, the handler returns and
the log is what it was, whatever `PrevLogIndex` and `PrevLogTerm` are:
`Entries` is not stored, so the log afterwards holds the supplied entries after
`PrevLogIndex` exactly when the log before already did. The reply carries the
request's `Term`, and `Success = true` exactly when `Term = currentTerm`. -/
theorem append_entries_keeps_log (rf : Raft E) (args : AppendEntriesArgs E)
    (hterm : rf.currentTerm ≤ args.Term) (hroom : rf.receiveAppendEntries.length < chanCap) :
    ∃ rf1 r, AppendEntries rf args {} = some (rf1, r) ∧
      rf1.log = rf.log ∧
      (specReplicated rf.log rf1.log args ↔
        (rf.log.drop args.PrevLogIndex.toNat).take args.Entries.length = args.Entries) ∧
      r.Term = args.Term ∧
      (r.Success = true ↔ args.Term = rf.currentTerm) := by
  rw [AppendEntries_of_room rf args {} hterm hroom]
  by_cases hbig : rf.currentTerm < args.Term
  · rw [if_pos hbig]
    refine ⟨_, _, rfl, rfl, ?_, rfl, ?_⟩
    · simp [specReplicated, becomeFollower]
    · simp [ne_of_gt hbig]
  · rw [if_neg hbig]
    have heq : args.Term = rf.currentTerm := le_antisymm (not_lt.mp hbig) hterm
    refine ⟨_, _, rfl, rfl, ?_, heq.symm, ?_⟩
    · simp [specReplicated]
    · simp [heq]

/-- C8, amended, at a fresh module handed one entry in its own term. -/
theorem append_entries_keeps_log_witness :
    ∃ rf1 r, AppendEntries (Make 3 1 [] : Raft Int) oneEntryArgs {} = some (rf1, r) ∧
      rf1.log = (Make 3 1 [] : Raft Int).log ∧
      (specReplicated (Make 3 1 [] : Raft Int).log rf1.log oneEntryArgs ↔
        ((Make 3 1 [] : Raft Int).log.drop oneEntryArgs.PrevLogIndex.toNat).take
          oneEntryArgs.Entries.length = oneEntryArgs.Entries) ∧
      r.Term = oneEntryArgs.Term ∧
      (r.Success = true ↔ oneEntryArgs.Term = (Make 3 1 [] : Raft Int).currentTerm) :=
  append_entries_keeps_log (Make 3 1 [] : Raft Int) oneEntryArgs (by decide) (by decide)

/-! ## Votes are not recorded (C2, C1) -/

/-- C2 at its failing input. The module `Make` returns for peer 1 handles a
request of candidate 0 and then one of candidate 2, both with `Term = 1`. Both
replies carry `VoteGranted = true` in term 1, and `votedFor` is still -1 after
each: the handler never stores the candidate it voted for. -/
theorem two_votes_in_one_term :
    ∃ rf1 rf2 : Raft Unit,
      RequestVote (Make 3 1 []) { Term := 1, CandidateId := 0 } {} =
          some (rf1, { Term := 1, VoteGranted := true }) ∧
        RequestVote rf1 { Term := 1, CandidateId := 2 } {} =
          some (rf2, { Term := 1, VoteGranted := true }) ∧
        rf1.currentTerm = 1 ∧ rf2.currentTerm = 1 ∧ rf1.votedFor = -1 ∧ rf2.votedFor = -1 :=
  ⟨_, _, rfl, rfl, rfl, rfl, rfl, rfl⟩

/-- C1 at its failing run. In a cluster of three started by `Make`, modules 0
and 2 time out and become candidates of term 1, module 1 handles the request
of each and grants both, and each candidate, on its reply, counts two votes of
three and becomes leader: two leaders in term 1. -/
theorem two_leaders_in_one_term :
    ∃ c : Cluster Unit, run (Cluster.init 3) splitVote = some c ∧
      c.nodes.map (fun rf => (rf.role, rf.currentTerm)) =
        [(ROLE_LEADER, 1), (ROLE_FOLLOWER, 1), (ROLE_LEADER, 1)] ∧
      ¬ ElectionSafety c := by
  refine ⟨_, rfl, by decide, ?_⟩
  intro h
  exact h 0 2 _ _ (by decide) rfl rfl (by decide) (by decide) (by decide)

/-! ## AppendEntries in the receiver's own term (C7) -/

/-- C7 at its failing input. A candidate of term 1 that handles an
`AppendEntries` request with `Term = 1` answers `Success = true` and is still
candidate afterwards. -/
theorem candidate_stays_candidate :
    ∃ rf1 : Raft Unit,
      AppendEntries (becomeCandidate (Make 3 0 [])).1 { Term := 1, LeaderId := 2 } {} =
          some (rf1, { Term := 1, Success := true }) ∧
        (becomeCandidate (Make 3 0 [] : Raft Unit)).1.currentTerm = 1 ∧
        rf1.role = ROLE_CANDIDATE ∧ rf1.role ≠ ROLE_FOLLOWER :=
  ⟨_, rfl, by decide, rfl, by decide⟩

/-! ## Start (C9) -/

/-- C9 at its failing input. On the follower that `Make` returns, `Start`
leaves the module as it is and returns `(-1, -1, true)`: `isLeader` is true. -/
theorem start_reports_leader_on_follower :
    (Make 3 0 [] : Raft Nat).role = ROLE_FOLLOWER ∧
      (Make 3 0 [] : Raft Nat).role ≠ ROLE_LEADER ∧
      Start (Make 3 0 [] : Raft Nat) 7 = (Make 3 0 [], -1, -1, true) :=
  ⟨rfl, by decide, rfl⟩

/-! ## Replies are counted without re-validation (C10) -/

/-- C10 at its failing inputs. A candidate of term 2 that receives the granted
reply to its request of term 1 counts it and becomes leader of term 2; and a
module that has stepped down to follower in term 2 still counts such a reply,
and a second one makes that follower leader. -/
theorem stale_vote_counted :
    secondRoundCandidate.role = ROLE_CANDIDATE ∧ secondRoundCandidate.currentTerm = 2 ∧
      secondRoundCandidate.voteCount = 1 ∧
      (sendRequestVote secondRoundCandidate 1 { Term := 1, CandidateId := 0 } true
          { Term := 1, VoteGranted := true }).1.role = ROLE_LEADER ∧
      (sendRequestVote secondRoundCandidate 1 { Term := 1, CandidateId := 0 } true
          { Term := 1, VoteGranted := true }).1.currentTerm = 2 ∧
      (becomeFollower secondRoundCandidate 2).voteCount = 0 ∧
      (sendRequestVote (becomeFollower secondRoundCandidate 2) 1
          { Term := 1, CandidateId := 0 } true { Term := 1, VoteGranted := true }).1.voteCount
        = 1 ∧
      (sendRequestVote
          (sendRequestVote (becomeFollower secondRoundCandidate 2) 1
            { Term := 1, CandidateId := 0 } true { Term := 1, VoteGranted := true }).1
          2 { Term := 1, CandidateId := 0 } true { Term := 1, VoteGranted := true }).1.role
        = ROLE_LEADER := by
  decide

end raft
